import Mathlib

/-!
Shallow embedding of the `screenshot-server` Go repository (the
chromedp/cdproto-based implementation): the screenshot request data model,
defaulting and validation, the viewport computation of the screenshot
handler, the auto-expand height computation, the browserless endpoint
discovery pipeline with its WebSocket URL rewrite, and the HTTP error
classification of the handler.

Machine integers of the source (`int`, `int64`) are modelled as `Int`
(no arithmetic here comes near overflow), `float64` values that are only
compared and defaulted are modelled as `Rat`, and Go errors are modelled
as strings or as a record carrying the message together with the
`errors.Is` sentinel facts used by the code.
-/

namespace ScreenshotServer

/-- Decidable equality for `Except` values, used to evaluate the
embedding on concrete inputs. -/
instance instDecEqExcept {ε α : Type} [DecidableEq ε] [DecidableEq α] :
    DecidableEq (Except ε α) := fun a b =>
  match a, b with
  | .error e1, .error e2 =>
    if h : e1 = e2 then isTrue (by rw [h])
    else isFalse (by intro hc; injection hc; contradiction)
  | .error _, .ok _ => isFalse (by intro hc; exact Except.noConfusion hc)
  | .ok _, .error _ => isFalse (by intro hc; exact Except.noConfusion hc)
  | .ok a1, .ok a2 =>
    if h : a1 = a2 then isTrue (by rw [h])
    else isFalse (by intro hc; injection hc; contradiction)

/-- Constants from the `const` block of the source. -/
def defaultWidth : Int := 1920

/-- Default viewport height (source `defaultHeight`). -/
def defaultHeight : Int := 1080

/-- Default output format (source `defaultFormat`). -/
def defaultFormat : String := "png"

/-- Default image quality (source `defaultQuality`). -/
def defaultQuality : Int := 90

/-- Default device scale factor (source `defaultDeviceScale`). -/
def defaultDeviceScale : Rat := 1

/-- Default timeout in seconds (source `defaultTimeoutSec`). -/
def defaultTimeoutSec : Int := 30

/-- Maximum timeout in seconds (source `maxTimeoutSec`). -/
def maxTimeoutSec : Int := 120

/-- Ceiling for the auto-expanded viewport height (source
`maxAutoViewportHeight`). -/
def maxAutoViewportHeight : Int := 30000

/-- Compiled-in default control-plane base address (source
`defaultBrowserlessHTTPURL`). -/
def defaultBrowserlessHTTPURL : String := "http://localhost:3000"

/-- The optional clip rectangle of a request (source `type Clip`). -/
structure Clip where
  x : Rat
  y : Rat
  width : Rat
  height : Rat
  deriving Repr, DecidableEq

/-- The request data model (source `type ScreenshotRequest`).  Field
defaults are the Go zero values, so `\x7b\x7d`-style construction of a
request mirrors a JSON body that omits those fields. -/
structure ScreenshotRequest where
  url : String := ""
  selector : String := ""
  width : Int := 0
  height : Int := 0
  format : String := ""
  quality : Int := 0
  waitTime : Int := 0
  waitFor : String := ""
  fullPage : Bool := false
  headers : List (String × String) := []
  userAgent : String := ""
  deviceScale : Rat := 0
  mobile : Bool := false
  landscape : Bool := false
  timeout : Int := 0
  clip : Option Clip := none
  deriving Repr, DecidableEq

/-- Source `(*ScreenshotRequest).applyDefaults`: every zero-valued field
among width/height/format/quality/deviceScale/timeout is replaced by its
default; height is only defaulted when the selector is empty. -/
def applyDefaults (r : ScreenshotRequest) : ScreenshotRequest :=
  { r with
    width := if r.width = 0 then defaultWidth else r.width
    height := if r.height = 0 ∧ r.selector = "" then defaultHeight else r.height
    format := if r.format = "" then defaultFormat else r.format
    quality := if r.quality = 0 then defaultQuality else r.quality
    deviceScale := if r.deviceScale = 0 then defaultDeviceScale else r.deviceScale
    timeout := if r.timeout = 0 then defaultTimeoutSec else r.timeout }

/-- Drop leading whitespace characters. -/
def dropLeadingWS : List Char → List Char
  | [] => []
  | c :: cs => if c.isWhitespace then dropLeadingWS cs else c :: cs

/-- Model of Go `strings.TrimSpace` (whitespace stripped from both
ends). -/
def goTrimSpace (s : String) : String :=
  String.mk (dropLeadingWS (dropLeadingWS s.data.reverse).reverse)

/-- ASCII lower-casing of one character. -/
def charToLower (c : Char) : Char :=
  if 'A' ≤ c ∧ c ≤ 'Z' then Char.ofNat (c.toNat + 32) else c

/-- Model of Go `strings.ToLower`; the sources only case-fold ASCII
format names and ASCII error vocabulary, so the ASCII mapping suffices. -/
def goToLower (s : String) : String :=
  String.mk (s.data.map charToLower)

/-- Model of Go `strings.HasPrefix`. -/
def goHasPrefixAux : List Char → List Char → Bool
  | _, [] => true
  | [], _ :: _ => false
  | c :: cs, p :: ps => c == p && goHasPrefixAux cs ps

/-- Model of Go `strings.HasPrefix` on strings. -/
def goHasPrefixStr (s pre : String) : Bool :=
  goHasPrefixAux s.data pre.data

/-- Model of Go `strings.HasSuffix` on strings. -/
def goHasSuffixStr (s suf : String) : Bool :=
  goHasPrefixAux s.data.reverse suf.data.reverse

/-- Scheme start character per Go `net/url` (a letter). -/
def isSchemeStartChar (c : Char) : Bool := c.isAlpha

/-- Scheme tail character per Go `net/url` (letter, digit, `+`, `-`, `.`). -/
def isSchemeTailChar (c : Char) : Bool :=
  c.isAlpha || c.isDigit || c == '+' || c == '-' || c == '.'

/-- Worker for `extractScheme`: accumulates scheme characters until the
first `:`. -/
def extractSchemeAux (acc : List Char) : List Char → Option (String × String)
  | [] => none
  | c :: cs =>
    if c == ':' then
      if acc.isEmpty then none else some (String.mk acc.reverse, String.mk cs)
    else if (acc.isEmpty && isSchemeStartChar c) || (!acc.isEmpty && isSchemeTailChar c) then
      extractSchemeAux (c :: acc) cs
    else
      none

/-- Model of Go `net/url`'s `getScheme`: splits `"scheme:rest"` when the
prefix before the first `:` is a well-formed scheme, else no scheme. -/
def extractScheme (s : String) : Option (String × String) :=
  extractSchemeAux [] s.data

/-- Model of the URL check in `validate`: `url.ParseRequestURI` succeeds
and the parsed scheme (case-folded, as Go lowercases schemes) is `http`
or `https`.  Only the scheme-level behaviour of the Go parser is
modelled; rarer parse failures (control characters, malformed hosts)
behind a valid http/https scheme are not, and no claim depends on them. -/
def validHTTPURL (s : String) : Bool :=
  match extractScheme s with
  | some (sch, _) => decide (goToLower sch = "http" ∨ goToLower sch = "https")
  | none => false

/-- Source `(*ScreenshotRequest).validate`: the ordered, short-circuiting
range checks, returning the canonical request (format case-folded) or the
first violated rule's message. -/
def validate (r : ScreenshotRequest) : Except String ScreenshotRequest :=
  if r.url = "" then .error "url is required"
  else if validHTTPURL r.url = false then .error "url must be a valid http/https URL"
  else if r.width < 100 ∨ r.width > 4096 then .error "width must be between 100 and 4096"
  else if r.height ≠ 0 ∧ (r.height < 100 ∨ r.height > 10000) then
    .error "height must be between 100 and 10000"
  else if r.height = 0 ∧ r.selector = "" then
    .error "height must be between 100 and 10000"
  else if goToLower r.format ≠ "png" ∧ goToLower r.format ≠ "jpeg" ∧
      goToLower r.format ≠ "webp" then
    .error "format must be one of: png, jpeg, webp"
  else if r.quality < 1 ∨ r.quality > 100 then .error "quality must be between 1 and 100"
  else if r.timeout < 1 ∨ r.timeout > maxTimeoutSec then
    .error "timeout must be between 1 and 120 seconds"
  else if r.deviceScale ≤ 0 ∨ r.deviceScale > 4 then
    .error "device_scale must be between 0 and 4"
  else if r.waitTime < 0 then .error "wait_time must be >= 0"
  else
    match r.clip with
    | some cl =>
      if cl.width ≤ 0 ∨ cl.height ≤ 0 then .error "clip width/height must be > 0"
      else if cl.x < 0 ∨ cl.y < 0 then .error "clip x/y must be >= 0"
      else .ok { r with format := goToLower r.format }
    | none => .ok { r with format := goToLower r.format }

/-- Boolean success test for `Except`. -/
def exceptIsOk : Except String ScreenshotRequest → Bool
  | .ok _ => true
  | .error _ => false

/-- The effective viewport height before the mobile/landscape swap in
`screenshotHandler`: a zero (unset) height is replaced by the default. -/
def effViewportHeight (r : ScreenshotRequest) : Int :=
  if r.height = 0 then defaultHeight else r.height

/-- The viewport committed to the browser by `screenshotHandler`
(lines setting `viewportWidth`/`viewportHeight` and the
mobile-and-landscape swap). -/
def committedViewport (r : ScreenshotRequest) : Int × Int :=
  let vw := r.width
  let vh := effViewportHeight r
  if r.mobile && r.landscape then (vh, vw) else (vw, vh)

/-- The auto-expand step of `screenshotHandler` (the `ActionFunc` run when
a selector capture has no explicit height): from the measured page content
height and the current viewport height it computes the final viewport
height and whether device metrics are re-applied; a non-positive measured
height is the source's "failed to determine page height" error. -/
def autoExpandStep (pageHeight : Rat) (viewportHeight : Int) :
    Except String (Int × Bool) :=
  if pageHeight ≤ 0 then .error "failed to determine page height"
  else
    let desired0 : Int := ⌈pageHeight⌉
    let desired1 : Int := if desired0 < viewportHeight then viewportHeight else desired0
    let desired : Int :=
      if desired1 > maxAutoViewportHeight then maxAutoViewportHeight else desired1
    .ok (desired, desired != viewportHeight)

/-- Does the Char list contain the pattern list as a contiguous segment. -/
def listHasSeg (pat : List Char) : List Char → Bool
  | [] => pat.isEmpty
  | c :: cs => goHasPrefixAux (c :: cs) pat || listHasSeg pat cs

/-- Model of Go `strings.Contains`. -/
def hasSubstr (s pat : String) : Bool :=
  listHasSeg pat.data s.data

/-- A Go error as seen by the handler: its message together with the
`errors.Is` facts for the two context sentinels the code tests. -/
structure GoError where
  msg : String
  deadlineExceeded : Bool := false
  canceled : Bool := false
  deriving Repr, DecidableEq

/-- Source `isTimeoutErr`: the error is `context.DeadlineExceeded` or
`context.Canceled` (via `errors.Is`), or its lower-cased text contains
"deadline exceeded". -/
def isTimeoutErr (e : GoError) : Bool :=
  e.deadlineExceeded || e.canceled || hasSubstr (goToLower e.msg) "deadline exceeded"

/-- A fresh error built by `errors.New` / `fmt.Errorf` (no wrapped context
sentinel). -/
def GoError.fresh (m : String) : GoError := { msg := m }

/-- A parsed URL as the code sees it: the fields of Go `net/url.URL` the
source reads or writes (`Scheme`, `Host`, `Path`, `RawQuery`,
`Fragment`); userinfo, opaque bodies and percent-escaping are not used by
the source on the URLs it manipulates and are not modelled. -/
structure URL where
  scheme : String := ""
  host : String := ""
  path : String := ""
  rawQuery : String := ""
  fragment : String := ""
  deriving Repr, DecidableEq

/-- Model of Go `net/url.URL.String()` restricted to the URLs this code
builds (no userinfo, no opaque part, no escaping needed). -/
def URL.render (u : URL) : String :=
  (if u.scheme ≠ "" then u.scheme ++ ":" else "") ++
  (if u.scheme ≠ "" ∨ u.host ≠ "" then "//" ++ u.host else "") ++
  u.path ++
  (if u.rawQuery ≠ "" then "?" ++ u.rawQuery else "") ++
  (if u.fragment ≠ "" then "#" ++ u.fragment else "")

/-- Strip one pair of square brackets (Go `net/url` does this to IPv6
hosts inside `splitHostPort`). -/
def stripBrackets (h : String) : String :=
  if goHasPrefixStr h "[" ∧ goHasSuffixStr h "]" then String.mk (h.data.drop 1).dropLast
  else h

/-- Model of Go `net/url`'s `splitHostPort`: the port is the suffix after
the last colon when that suffix is all digits, else empty; brackets are
stripped from the host part. -/
def splitHostPort (hostPort : String) : String × String :=
  let rev := hostPort.data.reverse
  let digitsRev := rev.takeWhile Char.isDigit
  let rest := rev.drop digitsRev.length
  let hp : String × String :=
    match rest with
    | ':' :: hostRev => (String.mk hostRev.reverse, String.mk digitsRev.reverse)
    | _ => (hostPort, "")
  (stripBrackets hp.1, hp.2)

/-- Go `url.URL.Hostname()`. -/
def URL.hostname (u : URL) : String := (splitHostPort u.host).1

/-- Go `url.URL.Port()`. -/
def URL.port (u : URL) : String := (splitHostPort u.host).2

/-- Model of Go `net.JoinHostPort`. -/
def joinHostPort (host port : String) : String :=
  if host.data.contains ':' then "[" ++ host ++ "]:" ++ port else host ++ ":" ++ port

/-- Take characters until one of the stop characters; returns the prefix
and the remainder starting at the stop character. -/
def takeUntil (stops : List Char) : List Char → List Char × List Char
  | [] => ([], [])
  | c :: cs =>
    if stops.contains c then ([], c :: cs)
    else
      let p := takeUntil stops cs
      (c :: p.1, p.2)

/-- Model of the successful cases of Go `url.Parse`: fragment split at the
first `#`, scheme extracted and case-folded, query split at `?`,
`//`-led authority, and either a path, an opaque remainder (stored by Go
outside `Path`, so `path` is empty here), or a relative path.  Parse
failures of `url.Parse` (invalid characters) are not modelled; no claim
depends on them. -/
def parseURL (raw : String) : URL :=
  let fragSplit := takeUntil ['#'] raw.data
  let frag : String :=
    match fragSplit.2 with
    | [] => ""
    | _ :: rest => String.mk rest
  let schemeSplit : String × List Char :=
    match extractSchemeAux [] fragSplit.1 with
    | some (sch, rest) => (goToLower sch, rest.data)
    | none => ("", fragSplit.1)
  let qSplit := takeUntil ['?'] schemeSplit.2
  let query : String :=
    match qSplit.2 with
    | [] => ""
    | _ :: qrest => String.mk qrest
  if qSplit.1.take 2 = ['/', '/'] then
    let authSplit := takeUntil ['/'] (qSplit.1.drop 2)
    { scheme := schemeSplit.1, host := String.mk authSplit.1,
      path := String.mk authSplit.2, rawQuery := query, fragment := frag }
  else if schemeSplit.1 ≠ "" ∧ qSplit.1.take 1 ≠ ['/'] then
    { scheme := schemeSplit.1, host := "", path := "", rawQuery := query, fragment := frag }
  else
    { scheme := schemeSplit.1, host := "", path := String.mk qSplit.1,
      rawQuery := query, fragment := frag }

/-- Source `hasDevToolsPath`: the trimmed URL is non-empty, parses, and
its trimmed path starts with `/devtools/`. -/
def hasDevToolsPath (wsRaw : String) : Bool :=
  let t := goTrimSpace wsRaw
  if t = "" then false
  else goHasPrefixStr (goTrimSpace (parseURL t).path) "/devtools/"

/-- Source `httpBaseHostPortWithDefault`: hostname of the base plus its
port, defaulting to 80 for http and 443 for https. -/
def httpBaseHostPortWithDefault (u : URL) : Except String String :=
  let host := u.hostname
  if host = "" then
    .error ("invalid BROWSERLESS_HTTP_URL \"" ++ u.render ++ "\": missing hostname")
  else if u.port ≠ "" then .ok (joinHostPort host u.port)
  else if u.scheme = "http" then .ok (joinHostPort host "80")
  else if u.scheme = "https" then .ok (joinHostPort host "443")
  else .error ("invalid BROWSERLESS_HTTP_URL \"" ++ u.render ++ "\": unsupported scheme \"" ++ u.scheme ++ "\"")

/-- Source `wsSchemeForHTTPBase`: http maps to ws, https to wss. -/
def wsSchemeForHTTPBase (u : URL) : Except String String :=
  if u.scheme = "http" then .ok "ws"
  else if u.scheme = "https" then .ok "wss"
  else .error ("invalid BROWSERLESS_HTTP_URL \"" ++ u.render ++ "\": unsupported scheme \"" ++ u.scheme ++ "\"")

/-- Source `rewriteWebSocketDebuggerURL`, acting on the parsed discovered
URL: requires a non-empty scheme and host, then overrides scheme and
host:port from the control-plane base while keeping everything else. -/
def rewriteWSDebuggerURLParsed (wsU : URL) (httpBase : URL) : Except String URL :=
  if wsU.scheme = "" ∨ wsU.host = "" then
    .error ("invalid webSocketDebuggerUrl \"" ++ wsU.render ++ "\": missing scheme or host")
  else
    match httpBaseHostPortWithDefault httpBase with
    | .error e => .error e
    | .ok hostPort =>
      match wsSchemeForHTTPBase httpBase with
      | .error e => .error e
      | .ok desiredScheme => .ok { wsU with scheme := desiredScheme, host := hostPort }

/-- Source `rewriteWebSocketDebuggerURL` on the raw string: trim, reject
empty, parse, rewrite, serialize. -/
def rewriteWebSocketDebuggerURL (webSocketDebuggerURL : String) (httpBase : URL) :
    Except String String :=
  let wsRaw := goTrimSpace webSocketDebuggerURL
  if wsRaw = "" then .error "missing webSocketDebuggerUrl"
  else
    match rewriteWSDebuggerURLParsed (parseURL wsRaw) httpBase with
    | .error e => .error e
    | .ok u => .ok u.render

/-- Source `httpBaseFromWSEndpoint`: convert a configured bare ws/wss
endpoint to an HTTP control-plane base (path kept, query/fragment
dropped). -/
def httpBaseFromWSEndpoint (wsRaw0 : String) : Except GoError URL :=
  let wsRaw := goTrimSpace wsRaw0
  if wsRaw = "" then .error (GoError.fresh "ws endpoint is empty")
  else
    let u := parseURL wsRaw
    if u.scheme ≠ "ws" ∧ u.scheme ≠ "wss" then
      .error (GoError.fresh ("scheme must be ws/wss, got \"" ++ u.scheme ++ "\""))
    else if u.host = "" then .error (GoError.fresh "missing host")
    else
      .ok { scheme := if u.scheme = "wss" then "https" else "http",
            host := u.host, path := u.path }

/-- Source `parseBrowserlessHTTPBase`. -/
def parseBrowserlessHTTPBase (raw0 : String) : Except GoError URL :=
  let raw := goTrimSpace raw0
  if raw = "" then .error (GoError.fresh "BROWSERLESS_HTTP_URL is empty")
  else
    let u := parseURL raw
    if u.scheme = "" then
      .error (GoError.fresh ("invalid BROWSERLESS_HTTP_URL \"" ++ raw ++ "\": missing scheme (http/https)"))
    else if u.scheme ≠ "http" ∧ u.scheme ≠ "https" then
      .error (GoError.fresh ("invalid BROWSERLESS_HTTP_URL \"" ++ raw ++ "\": scheme must be http/https"))
    else if u.host = "" then
      .error (GoError.fresh ("invalid BROWSERLESS_HTTP_URL \"" ++ raw ++ "\": missing host"))
    else .ok u

/-- Outcome of one remote discovery HTTP call, abstracting the transport,
the status check and the JSON decode of the corresponding source
function: `.ok` carries the decoded `webSocketDebuggerUrl` value(s),
`.error` the transport/status/decode error the source would return before
reaching the devtools-path check. -/
structure DiscoveryOracle where
  versionResp : Except GoError String
  newResp : Except GoError String
  listResp : Except GoError (List String)
  deriving Repr

/-- Source `resolveWSEndpointViaJSONNew`, over the oracle: require a
devtools path on the returned URL, then apply the rewrite. -/
def resolveWSEndpointViaJSONNew (o : DiscoveryOracle) (httpBase : URL) :
    Except GoError String :=
  match o.newResp with
  | .error e => .error e
  | .ok wsRaw =>
    if hasDevToolsPath wsRaw = false then
      .error (GoError.fresh ("browserless /json/new returned non-devtools ws: \"" ++ goTrimSpace wsRaw ++ "\""))
    else
      match rewriteWebSocketDebuggerURL wsRaw httpBase with
      | .error e => .error (GoError.fresh e)
      | .ok rewritten => .ok rewritten

/-- The scan loop of `resolveWSEndpointViaJSONList`: first entry that has
a devtools path and rewrites successfully; entries failing either test
are skipped (`continue`). -/
def jsonListScan (httpBase : URL) : List String → Option String
  | [] => none
  | wsRaw :: rest =>
    if hasDevToolsPath wsRaw = false then jsonListScan httpBase rest
    else
      match rewriteWebSocketDebuggerURL wsRaw httpBase with
      | .error _ => jsonListScan httpBase rest
      | .ok rewritten => some rewritten

/-- Source `resolveWSEndpointViaJSONList`, over the oracle. -/
def resolveWSEndpointViaJSONList (o : DiscoveryOracle) (httpBase : URL) :
    Except GoError String :=
  match o.listResp with
  | .error e => .error e
  | .ok payloads =>
    match jsonListScan httpBase payloads with
    | some rewritten => .ok rewritten
    | none =>
      .error (GoError.fresh ("browserless /json/list returned " ++ toString payloads.length ++ " targets, but none has a usable devtools ws"))

/-- The discovery calls the resolver can make, in the order it makes
them. -/
inductive DiscoveryCall
  | version
  | jsonNew
  | jsonList
  deriving Repr, DecidableEq

/-- Source `resolveWSEndpointViaJSONVersion`, over the oracle, returning
the result together with the list of discovery calls attempted (in
order): `/json/version` always; on a non-devtools version URL,
`/json/new`, then `/json/list` only if `/json/new` failed. -/
def resolveWSEndpointViaJSONVersionTraced (o : DiscoveryOracle) (httpBase : URL) :
    Except GoError String × List DiscoveryCall :=
  match o.versionResp with
  | .error e => (.error e, [.version])
  | .ok rawWS =>
    if hasDevToolsPath (goTrimSpace rawWS) then
      (match rewriteWebSocketDebuggerURL (goTrimSpace rawWS) httpBase with
       | .error e => .error (GoError.fresh e)
       | .ok rewritten => .ok rewritten,
       [.version])
    else
      match resolveWSEndpointViaJSONNew o httpBase with
      | .ok resolved => (.ok resolved, [.version, .jsonNew])
      | .error _ =>
        match resolveWSEndpointViaJSONList o httpBase with
        | .ok resolved => (.ok resolved, [.version, .jsonNew, .jsonList])
        | .error _ =>
          (.error (GoError.fresh ("browserless /json/version returned non-devtools ws (\"" ++ goTrimSpace rawWS ++ "\") and fallbacks (/json/new,/json/list) failed")),
           [.version, .jsonNew, .jsonList])

/-- Source `resolveWSEndpointViaJSONVersion` (result only). -/
def resolveWSEndpointViaJSONVersion (o : DiscoveryOracle) (httpBase : URL) :
    Except GoError String :=
  (resolveWSEndpointViaJSONVersionTraced o httpBase).1

/-- Process environment as the source reads it: `CHROME_WS_ENDPOINT` via
`os.Getenv` (unset reads as empty) and `BROWSERLESS_HTTP_URL` via
`os.LookupEnv` (unset is distinguished from set-to-empty). -/
structure Env where
  chromeWSEndpoint : Option String := none
  browserlessHTTPURL : Option String := none
  deriving Repr, DecidableEq

/-- Source `getChromeWSEndpoint`. -/
def getChromeWSEndpoint (env : Env) : String :=
  goTrimSpace (env.chromeWSEndpoint.getD "")

/-- Source `getBrowserlessHTTPURL`: the compiled default when the
variable is unset, the trimmed value otherwise. -/
def getBrowserlessHTTPURL (env : Env) : String :=
  match env.browserlessHTTPURL with
  | none => defaultBrowserlessHTTPURL
  | some v => goTrimSpace v

/-- Source `resolveWSEndpoint`: returns the resolver result together with
the `configured` flag. -/
def resolveWSEndpoint (env : Env) (o : DiscoveryOracle) :
    Except GoError String × Bool :=
  let ws := getChromeWSEndpoint env
  if ws ≠ "" then
    if goHasPrefixStr (parseURL ws).path "/devtools/browser/" then (.ok ws, true)
    else
      match httpBaseFromWSEndpoint ws with
      | .error convErr =>
        (.error { msg := "invalid CHROME_WS_ENDPOINT \"" ++ ws ++ "\": " ++ convErr.msg,
                  deadlineExceeded := convErr.deadlineExceeded,
                  canceled := convErr.canceled }, true)
      | .ok httpBase =>
        match resolveWSEndpointViaJSONVersion o httpBase with
        | .error e => (.error e, true)
        | .ok resolved => (.ok resolved, true)
  else
    let httpBaseRaw := getBrowserlessHTTPURL env
    if httpBaseRaw = "" then
      (.error (GoError.fresh "browserless endpoint is not configured"), false)
    else
      match parseBrowserlessHTTPBase httpBaseRaw with
      | .error e => (.error e, true)
      | .ok httpBase =>
        match resolveWSEndpointViaJSONVersion o httpBase with
        | .error e => (.error e, true)
        | .ok resolved => (.ok resolved, true)

/-- Outcome of the endpoint-resolution step of `screenshotHandler`. -/
inductive EndpointOutcome
  | notConfigured
  | resolveTimeout (details : String)
  | resolveFailed (details : String)
  | resolved (wsURL : String)
  deriving Repr, DecidableEq

/-- The endpoint-resolution step of `screenshotHandler`: not-configured
wins, then a timeout-classified resolution error, then any other
resolution error, else the resolved endpoint. -/
def screenshotEndpointPhase (env : Env) (o : DiscoveryOracle) : EndpointOutcome :=
  match resolveWSEndpoint env o with
  | (_, false) => .notConfigured
  | (.error e, true) =>
    if isTimeoutErr e then .resolveTimeout e.msg else .resolveFailed e.msg
  | (.ok ws, true) => .resolved ws

/-- The exact not-configured error message of `screenshotHandler`. -/
def notConfiguredMsg : String :=
  "browserless/chrome endpoint is not configured, set BROWSERLESS_HTTP_URL or CHROME_WS_ENDPOINT"

/-- HTTP status and `error` field that `screenshotHandler` sends for each
failing endpoint outcome (`none` when resolution succeeded and the
handler proceeds). -/
def endpointFailureResponse : EndpointOutcome → Option (Nat × String)
  | .notConfigured => some (503, notConfiguredMsg)
  | .resolveTimeout _ => some (504, "browserless endpoint timeout")
  | .resolveFailed _ => some (502, "failed to resolve browserless websocket endpoint")
  | .resolved _ => none

/-- The `/health` handler: HTTP status and the `status` field.  A usable
endpoint means configured, no resolver error, and a non-empty URL. -/
def healthResponse (env : Env) (o : DiscoveryOracle) : Nat × String :=
  let r := resolveWSEndpoint env o
  let available := r.2 && (match r.1 with | .ok ws => if ws = "" then false else true | .error _ => false)
  if available then (200, "ok") else (503, "degraded")

/-- The transport-failure vocabulary tested after `chromedp.Run` of the
capture pipeline (no "dial" in this site). -/
def connSubstrRun (m : String) : Bool :=
  hasSubstr m "websocket" || hasSubstr m "handshake" || hasSubstr m "connect"

/-- The transport-failure vocabulary tested in the dial phase (adds
"dial"). -/
def connSubstrDial (m : String) : Bool :=
  hasSubstr m "websocket" || hasSubstr m "handshake" || hasSubstr m "connect" ||
    hasSubstr m "dial"

/-- Dial-phase error mapping of `screenshotHandler`: status code, `error`
field, `details` field.  `dialCtxDeadline` is `errors.Is(dialCtx.Err(),
context.DeadlineExceeded)`. -/
def classifyDialErr (dialCtxDeadline : Bool) (e : GoError) : Nat × String × String :=
  if dialCtxDeadline || e.deadlineExceeded then (504, "chrome dial timeout", e.msg)
  else if connSubstrDial (goToLower e.msg) then
    (502, "failed to connect chrome endpoint", "dial failed: " ++ e.msg)
  else if isTimeoutErr e then (504, "chrome dial timeout", e.msg)
  else (502, "failed to connect chrome endpoint", e.msg)

/-- Capture-pipeline error mapping of `screenshotHandler` (the
`chromedp.Run(taskCtx, actions...)` failure branch): status code,
`error` field, `details` field. -/
def classifyRunErr (e : GoError) : Nat × String × String :=
  if isTimeoutErr e then (504, "screenshot timeout", e.msg)
  else if connSubstrRun (goToLower e.msg) then
    (502, "failed to connect chrome endpoint", e.msg)
  else (500, "failed to screenshot", e.msg)

/-- The query parameters of a GET request; `gin`'s `c.Query` returns the
first value of a key and the empty string when absent. -/
structure QueryParams where
  pairs : List (String × String)
  deriving Repr, DecidableEq

/-- First value bound to the key, if present. -/
def queryLookup (q : QueryParams) (key : String) : Option String :=
  (q.pairs.find? (fun p => decide (p.1 = key))).map Prod.snd

/-- `gin` `c.Query`. -/
def queryGet (q : QueryParams) (key : String) : String :=
  (queryLookup q key).getD ""

/-- `gin` `c.DefaultQuery`: the default only when the key is absent. -/
def queryGetDefault (q : QueryParams) (key dflt : String) : String :=
  (queryLookup q key).getD dflt

/-- Value of a digit list, most significant first. -/
def digitsToNat (ds : List Char) : Nat :=
  ds.foldl (fun n c => 10 * n + (c.toNat - 48)) 0

/-- Model of Go `strconv.ParseBool`. -/
def goParseBool (s : String) : Option Bool :=
  if s = "1" ∨ s = "t" ∨ s = "T" ∨ s = "true" ∨ s = "TRUE" ∨ s = "True" then some true
  else if s = "0" ∨ s = "f" ∨ s = "F" ∨ s = "false" ∨ s = "FALSE" ∨ s = "False" then
    some false
  else none

/-- Model of Go `strconv.Atoi` (overflow of 64-bit inputs not modelled;
no claim feeds it such values). -/
def goAtoi (s : String) : Option Int :=
  match s.data with
  | [] => none
  | '+' :: ds =>
    if ds ≠ [] ∧ ds.all Char.isDigit then some (digitsToNat ds : Int) else none
  | '-' :: ds =>
    if ds ≠ [] ∧ ds.all Char.isDigit then some (-(digitsToNat ds : Int)) else none
  | ds => if ds ≠ [] ∧ ds.all Char.isDigit then some (digitsToNat ds : Int) else none

/-- Model of Go `strconv.ParseFloat` for plain decimal forms (optional
sign, integer part, optional fraction); exponent/hex/inf forms are not
modelled and no claim feeds them. -/
def goParseFloat (s : String) : Option Rat :=
  let core : List Char → Option Rat := fun ds =>
    let p := takeUntil ['.'] ds
    match p.2 with
    | [] =>
      if p.1 ≠ [] ∧ p.1.all Char.isDigit then some (digitsToNat p.1 : Rat) else none
    | _ :: fp =>
      if (p.1 ≠ [] ∨ fp ≠ []) ∧ p.1.all Char.isDigit ∧ fp.all Char.isDigit then
        some ((digitsToNat p.1 : Rat) + (digitsToNat fp : Rat) / ((10 : Rat) ^ fp.length))
      else none
  match s.data with
  | '+' :: ds => core ds
  | '-' :: ds => (core ds).map Neg.neg
  | ds => core ds

/-- Source `parseBoolQuery`. -/
def parseBoolQuery (q : QueryParams) (key : String) (defaultValue : Bool) :
    Except String Bool :=
  let v := queryGet q key
  if v = "" then .ok defaultValue
  else
    match goParseBool v with
    | some b => .ok b
    | none => .error (key ++ " must be boolean")

/-- Source `parseIntQuery`. -/
def parseIntQuery (q : QueryParams) (key : String) (defaultValue : Int) :
    Except String Int :=
  let v := queryGet q key
  if v = "" then .ok defaultValue
  else
    match goAtoi v with
    | some i => .ok i
    | none => .error (key ++ " must be integer")

/-- Source `parseFloatQuery`. -/
def parseFloatQuery (q : QueryParams) (key : String) (defaultValue : Rat) :
    Except String Rat :=
  let v := queryGet q key
  if v = "" then .ok defaultValue
  else
    match goParseFloat v with
    | some f => .ok f
    | none => .error (key ++ " must be number")

/-- The `headers` handling of `parseRequestFromGET`: an absent/empty
parameter leaves the map empty; otherwise the raw value must decode as a
JSON string-to-string object.  `jsonObjOf` abstracts `json.Unmarshal`
(`none` on decode failure). -/
def parseHeadersQuery (jsonObjOf : String → Option (List (String × String)))
    (q : QueryParams) : Except String (List (String × String)) :=
  let headersRaw := queryGet q "headers"
  if headersRaw = "" then Except.ok []
  else
    match jsonObjOf headersRaw with
    | some m => Except.ok m
    | none => Except.error "headers must be a valid JSON object"

/-- Source `parseRequestFromGET`.  `jsonObjOf` abstracts
`json.Unmarshal` of the `headers` value into a string-to-string map
(`none` on decode failure).  Each failing parse returns its error at
once, as the Go code does; note the source sets no `Clip` field, so the
result's clip is always absent. -/
def parseRequestFromGET (jsonObjOf : String → Option (List (String × String)))
    (q : QueryParams) : Except String ScreenshotRequest :=
  match parseIntQuery q "width" defaultWidth with
  | .error e => .error e
  | .ok width =>
  match parseIntQuery q "height" 0 with
  | .error e => .error e
  | .ok height =>
  match parseIntQuery q "quality" defaultQuality with
  | .error e => .error e
  | .ok quality =>
  match parseIntQuery q "wait_time" 0 with
  | .error e => .error e
  | .ok waitTime =>
  match parseIntQuery q "timeout" defaultTimeoutSec with
  | .error e => .error e
  | .ok timeout =>
  match parseFloatQuery q "device_scale" defaultDeviceScale with
  | .error e => .error e
  | .ok deviceScale =>
  match parseBoolQuery q "full_page" false with
  | .error e => .error e
  | .ok fullPage =>
  match parseBoolQuery q "mobile" false with
  | .error e => .error e
  | .ok mobile =>
  match parseBoolQuery q "landscape" false with
  | .error e => .error e
  | .ok landscape =>
  match parseHeadersQuery jsonObjOf q with
  | .error e => .error e
  | .ok headers =>
    .ok { url := queryGet q "url", selector := queryGet q "selector",
          format := queryGetDefault q "format" defaultFormat,
          waitFor := queryGet q "wait_for", width := width, height := height,
          quality := quality, waitTime := waitTime, timeout := timeout,
          deviceScale := deviceScale, fullPage := fullPage, mobile := mobile,
          landscape := landscape, userAgent := queryGet q "user_agent",
          headers := headers, clip := none }

/-- A request with height unset, no selector, and an invalid (empty)
URL, used to exercise the validation order. -/
def reqNoURL : ScreenshotRequest :=
  { url := "", selector := "", height := 0, width := 1920, format := "png",
    quality := 90, deviceScale := 1, timeout := 30 }

/-- A request with height unset, no selector, and all earlier checks
satisfiable. -/
def reqHeightUnset : ScreenshotRequest :=
  { url := "https://example.com", selector := "", height := 0, width := 1920,
    format := "png", quality := 90, deviceScale := 1, timeout := 30 }

/-- A mobile+landscape request with explicit width and height. -/
def reqSwap : ScreenshotRequest :=
  { url := "https://example.com", width := 500, height := 700,
    mobile := true, landscape := true }

/-- A request that supplies the zero value explicitly for width, quality,
device scale and timeout. -/
def reqZeros : ScreenshotRequest :=
  { url := "https://example.com", height := 500, width := 0, quality := 0,
    deviceScale := 0, timeout := 0 }

/-- A discovery oracle where `/json/version` returns a bare non-devtools
URL, `/json/new` fails, and the `/json/list` array's first entry carries
the devtools path but has no scheme/host (so its rewrite fails) while
the second entry is fully usable. -/
def oracleFallback : DiscoveryOracle :=
  { versionResp := .ok "ws://0.0.0.0:3000",
    newResp := .error (GoError.fresh "json/new unavailable"),
    listResp := .ok ["/devtools/browser/first",
                     "ws://0.0.0.0:3000/devtools/browser/second"] }

/-- A GET query that attempts to set the clip rectangle under the
plausible spellings while also giving a valid url. -/
def qClipAttempt : QueryParams :=
  ⟨[("url", "https://example.com"),
    ("clip", "\x7b\"x\":1,\"y\":2,\"width\":3,\"height\":4\x7d"),
    ("clip.x", "1"), ("clip.y", "2"), ("clip.width", "3"), ("clip.height", "4"),
    ("clip_x", "1"), ("clip_y", "2"), ("clip_width", "3"), ("clip_height", "4")]⟩

/-- A headers decoder recognizing the fixed token used by `qFull`. -/
def jsonHdr : String → Option (List (String × String)) :=
  fun s => if s = "H" then some [("Authorization", "Bearer t")] else none

/-- A GET query setting every settable request field to a non-default
value. -/
def qFull : QueryParams :=
  ⟨[("url", "https://example.com"), ("selector", "#main"), ("width", "800"),
    ("height", "600"), ("format", "jpeg"), ("quality", "50"),
    ("wait_time", "100"), ("wait_for", "#x"), ("full_page", "true"),
    ("headers", "H"), ("user_agent", "UA"), ("device_scale", "2"),
    ("mobile", "true"), ("landscape", "true"), ("timeout", "60")]⟩

/-- The request `qFull` parses to. -/
def reqFull : ScreenshotRequest :=
  { url := "https://example.com", selector := "#main", width := 800,
    height := 600, format := "jpeg", quality := 50, waitTime := 100,
    waitFor := "#x", fullPage := true,
    headers := [("Authorization", "Bearer t")], userAgent := "UA",
    deviceScale := 2, mobile := true, landscape := true, timeout := 60 }

/-
Theorems.
-/

/-- C9: the defaulting operation is idempotent — applying `applyDefaults`
twice yields the same request as applying it once (the handler relies on
this: POST requests pass through `applyDefaults` both in `parseRequest`
and again in `screenshotHandler` before validation). -/
theorem applyDefaults_idempotent (r : ScreenshotRequest) :
    applyDefaults (applyDefaults r) = applyDefaults r := by
  obtain ⟨url, selector, width, height, format, quality, waitTime, waitFor,
    fullPage, headers, userAgent, deviceScale, mobile, landscape, timeout, clip⟩ := r
  simp only [applyDefaults, defaultWidth, defaultHeight, defaultFormat, defaultQuality,
    defaultDeviceScale, defaultTimeoutSec, ScreenshotRequest.mk.injEq]
  refine ⟨trivial, trivial, ?_, ?_, ?_, ?_, trivial, trivial, trivial, trivial, trivial,
    ?_, trivial, trivial, ?_, trivial⟩ <;> split_ifs <;> simp_all

/-- C5 counterexample: a request with height unset (0) and an empty
selector whose URL is also empty is rejected with the url message, not
the height range-error message, because validation short-circuits in
order. -/
theorem height_unset_counterexample :
    reqNoURL.height = 0 ∧ reqNoURL.selector = "" ∧
    validate reqNoURL = .error "url is required" ∧
    "url is required" ≠ "height must be between 100 and 10000" := by decide

/-- C5 (amended): every request with height unset (0) and an empty
selector fails validation, and the reported message is the height
range-error message whenever the earlier url and width checks pass; in
particular height may pass validation as unset only when a selector is
present. -/
theorem height_unset_no_selector_rejected (r : ScreenshotRequest)
    (hh : r.height = 0) (hs : r.selector = "") :
    exceptIsOk (validate r) = false ∧
    (validHTTPURL r.url = true → ¬(r.width < 100 ∨ r.width > 4096) →
      validate r = .error "height must be between 100 and 10000") := by
  constructor
  · unfold validate
    by_cases h1 : r.url = ""
    · rw [if_pos h1]; rfl
    rw [if_neg h1]
    by_cases h2 : validHTTPURL r.url = false
    · rw [if_pos h2]; rfl
    rw [if_neg h2]
    by_cases h3 : r.width < 100 ∨ r.width > 4096
    · rw [if_pos h3]; rfl
    rw [if_neg h3, if_neg (by simp [hh]), if_pos ⟨hh, hs⟩]; rfl
  · intro hurl hwidth
    have hne : r.url ≠ "" := by
      intro h0
      rw [h0] at hurl
      exact absurd hurl (by decide)
    unfold validate
    rw [if_neg hne, if_neg (by simp [hurl]), if_neg hwidth, if_neg (by simp [hh]),
      if_pos ⟨hh, hs⟩]

/-- C5 witness: the amended statement at a concrete request whose url and
width checks pass. -/
theorem height_unset_no_selector_rejected_witness :
    validate reqHeightUnset = .error "height must be between 100 and 10000" :=
  (height_unset_no_selector_rejected reqHeightUnset rfl rfl).2 (by decide) (by decide)

/-- C6: for a request with mobile and landscape both set, the committed
viewport is the height/width pair swapped exactly once (with the unset
height sentinel already replaced by the default before the swap); no
other flag combination causes a swap. -/
theorem mobile_landscape_swap (r : ScreenshotRequest) :
    (r.mobile = true ∧ r.landscape = true →
      committedViewport r = (effViewportHeight r, r.width) ∧
      (r.height ≠ 0 → committedViewport r = (r.height, r.width))) ∧
    (¬(r.mobile = true ∧ r.landscape = true) →
      committedViewport r = (r.width, effViewportHeight r)) := by
  constructor
  · rintro ⟨hm, hl⟩
    have hc : committedViewport r = (effViewportHeight r, r.width) := by
      unfold committedViewport
      rw [hm, hl]
      rfl
    refine ⟨hc, fun hne => ?_⟩
    rw [hc]
    unfold effViewportHeight
    rw [if_neg hne]
  · intro hn
    have hb : (r.mobile && r.landscape) = false := by
      cases hm : r.mobile <;> cases hl : r.landscape <;> simp_all
    unfold committedViewport
    rw [hb]
    rfl

/-- C6 witness: a mobile+landscape request with width 500 and height 700
commits viewport (700, 500). -/
theorem mobile_landscape_swap_witness :
    committedViewport reqSwap = (700, 500) :=
  ((mobile_landscape_swap reqSwap).1 ⟨rfl, rfl⟩).2 (by decide)

/-- C4: in the auto-expand step, a positive measured content height
yields the final viewport height
`min (max ⌈pageHeight⌉ viewportHeight) 30000`, and device metrics are
re-applied exactly when that value differs from the current viewport
height. -/
theorem autoExpand_clamped (h : Rat) (vh : Int) (hpos : 0 < h) :
    autoExpandStep h vh =
      .ok (min (max ⌈h⌉ vh) maxAutoViewportHeight,
        min (max ⌈h⌉ vh) maxAutoViewportHeight != vh) ∧
    ∀ hFin reapply, autoExpandStep h vh = .ok (hFin, reapply) →
      (reapply = true ↔ hFin ≠ vh) := by
  have hnle : ¬ h ≤ 0 := not_le.mpr hpos
  have hmain : autoExpandStep h vh =
      .ok (min (max ⌈h⌉ vh) maxAutoViewportHeight,
        min (max ⌈h⌉ vh) maxAutoViewportHeight != vh) := by
    have key : (if (if (⌈h⌉ : Int) < vh then vh else ⌈h⌉) > maxAutoViewportHeight
        then maxAutoViewportHeight
        else if (⌈h⌉ : Int) < vh then vh else ⌈h⌉) =
        min (max ⌈h⌉ vh) maxAutoViewportHeight := by
      unfold maxAutoViewportHeight
      split_ifs <;> omega
    simp only [autoExpandStep]
    rw [if_neg hnle, key]
  refine ⟨hmain, fun hFin reapply heq => ?_⟩
  rw [hmain] at heq
  simp only [Except.ok.injEq, Prod.mk.injEq] at heq
  obtain ⟨h1, h2⟩ := heq
  subst h1
  subst h2
  exact bne_iff_ne

/-- C4 witness: a measured content height of 50000 with current viewport
height 1080 yields final height exactly 30000 and re-applies device
metrics. -/
theorem autoExpand_clamped_witness :
    (0 : Rat) < 50000 ∧ autoExpandStep 50000 1080 = .ok (30000, true) := by
  refine ⟨by norm_num, ?_⟩
  rw [(autoExpand_clamped 50000 1080 (by norm_num)).1]
  norm_num [maxAutoViewportHeight]

/-- Helper: which request condition each range-error message of
`validate` certifies, obtained by walking the check order once. -/
theorem validate_error_message_conditions {s : ScreenshotRequest} {e : String}
    (h : validate s = .error e) :
    (e = "width must be between 100 and 4096" → s.width < 100 ∨ s.width > 4096) ∧
    (e = "quality must be between 1 and 100" → s.quality < 1 ∨ s.quality > 100) ∧
    (e = "device_scale must be between 0 and 4" →
      s.deviceScale ≤ 0 ∨ s.deviceScale > 4) ∧
    (e = "timeout must be between 1 and 120 seconds" →
      s.timeout < 1 ∨ s.timeout > maxTimeoutSec) := by
  unfold validate at h
  by_cases h1 : s.url = ""
  · rw [if_pos h1] at h
    injection h with he
    subst he
    refine ⟨?_, ?_, ?_, ?_⟩ <;> (intro hc; exact absurd hc (by decide))
  rw [if_neg h1] at h
  by_cases h2 : validHTTPURL s.url = false
  · rw [if_pos h2] at h
    injection h with he
    subst he
    refine ⟨?_, ?_, ?_, ?_⟩ <;> (intro hc; exact absurd hc (by decide))
  rw [if_neg h2] at h
  by_cases h3 : s.width < 100 ∨ s.width > 4096
  · rw [if_pos h3] at h
    injection h with he
    subst he
    refine ⟨fun _ => h3, ?_, ?_, ?_⟩ <;> (intro hc; exact absurd hc (by decide))
  rw [if_neg h3] at h
  by_cases h4 : s.height ≠ 0 ∧ (s.height < 100 ∨ s.height > 10000)
  · rw [if_pos h4] at h
    injection h with he
    subst he
    refine ⟨?_, ?_, ?_, ?_⟩ <;> (intro hc; exact absurd hc (by decide))
  rw [if_neg h4] at h
  by_cases h5 : s.height = 0 ∧ s.selector = ""
  · rw [if_pos h5] at h
    injection h with he
    subst he
    refine ⟨?_, ?_, ?_, ?_⟩ <;> (intro hc; exact absurd hc (by decide))
  rw [if_neg h5] at h
  by_cases h6 : goToLower s.format ≠ "png" ∧ goToLower s.format ≠ "jpeg" ∧
      goToLower s.format ≠ "webp"
  · rw [if_pos h6] at h
    injection h with he
    subst he
    refine ⟨?_, ?_, ?_, ?_⟩ <;> (intro hc; exact absurd hc (by decide))
  rw [if_neg h6] at h
  by_cases h7 : s.quality < 1 ∨ s.quality > 100
  · rw [if_pos h7] at h
    injection h with he
    subst he
    refine ⟨?_, fun _ => h7, ?_, ?_⟩ <;> (intro hc; exact absurd hc (by decide))
  rw [if_neg h7] at h
  by_cases h8 : s.timeout < 1 ∨ s.timeout > maxTimeoutSec
  · rw [if_pos h8] at h
    injection h with he
    subst he
    refine ⟨?_, ?_, ?_, fun _ => h8⟩ <;> (intro hc; exact absurd hc (by decide))
  rw [if_neg h8] at h
  by_cases h9 : s.deviceScale ≤ 0 ∨ s.deviceScale > 4
  · rw [if_pos h9] at h
    injection h with he
    subst he
    refine ⟨?_, ?_, fun _ => h9, ?_⟩ <;> (intro hc; exact absurd hc (by decide))
  rw [if_neg h9] at h
  by_cases h10 : s.waitTime < 0
  · rw [if_pos h10] at h
    injection h with he
    subst he
    refine ⟨?_, ?_, ?_, ?_⟩ <;> (intro hc; exact absurd hc (by decide))
  rw [if_neg h10] at h
  rcases hclip : s.clip with _ | cl
  · simp only [hclip] at h
    exact absurd h (by intro hc; exact Except.noConfusion hc)
  simp only [hclip] at h
  by_cases h11 : cl.width ≤ 0 ∨ cl.height ≤ 0
  · rw [if_pos h11] at h
    injection h with he
    subst he
    refine ⟨?_, ?_, ?_, ?_⟩ <;> (intro hc; exact absurd hc (by decide))
  rw [if_neg h11] at h
  by_cases h12 : cl.x < 0 ∨ cl.y < 0
  · rw [if_pos h12] at h
    injection h with he
    subst he
    refine ⟨?_, ?_, ?_, ?_⟩ <;> (intro hc; exact absurd hc (by decide))
  rw [if_neg h12] at h
  exact absurd h (by intro hc; exact Except.noConfusion hc)

/-- C10: an explicitly supplied zero for width, quality, device scale or
timeout is indistinguishable from an unset field: `applyDefaults`
replaces it with the default before validation, so the pipeline never
rejects it with the corresponding range error. -/
theorem zero_valued_fields_use_defaults (r : ScreenshotRequest) :
    (r.width = 0 → (applyDefaults r).width = 1920 ∧
      validate (applyDefaults r) ≠ .error "width must be between 100 and 4096") ∧
    (r.quality = 0 → (applyDefaults r).quality = 90 ∧
      validate (applyDefaults r) ≠ .error "quality must be between 1 and 100") ∧
    (r.deviceScale = 0 → (applyDefaults r).deviceScale = 1 ∧
      validate (applyDefaults r) ≠ .error "device_scale must be between 0 and 4") ∧
    (r.timeout = 0 → (applyDefaults r).timeout = 30 ∧
      validate (applyDefaults r) ≠ .error "timeout must be between 1 and 120 seconds") := by
  refine ⟨fun h0 => ⟨?_, ?_⟩, fun h0 => ⟨?_, ?_⟩, fun h0 => ⟨?_, ?_⟩, fun h0 => ⟨?_, ?_⟩⟩
  · simp [applyDefaults, h0, defaultWidth]
  · intro hv
    have hor := (validate_error_message_conditions hv).1 rfl
    have hw : (applyDefaults r).width = 1920 := by simp [applyDefaults, h0, defaultWidth]
    rw [hw] at hor
    omega
  · simp [applyDefaults, h0, defaultQuality]
  · intro hv
    have hor := (validate_error_message_conditions hv).2.1 rfl
    have hw : (applyDefaults r).quality = 90 := by simp [applyDefaults, h0, defaultQuality]
    rw [hw] at hor
    omega
  · simp [applyDefaults, h0, defaultDeviceScale]
  · intro hv
    have hor := (validate_error_message_conditions hv).2.2.1 rfl
    have hw : (applyDefaults r).deviceScale = 1 := by
      simp [applyDefaults, h0, defaultDeviceScale]
    rw [hw] at hor
    rcases hor with hor | hor <;> norm_num at hor
  · simp [applyDefaults, h0, defaultTimeoutSec]
  · intro hv
    have hor := (validate_error_message_conditions hv).2.2.2 rfl
    have hw : (applyDefaults r).timeout = 30 := by simp [applyDefaults, h0, defaultTimeoutSec]
    rw [hw] at hor
    unfold maxTimeoutSec at hor
    omega

/-- C10 witness: a request supplying quality 0 (and zero width, device
scale, timeout) passes the whole pipeline with the defaults
substituted. -/
theorem zero_valued_fields_use_defaults_witness :
    reqZeros.quality = 0 ∧ (applyDefaults reqZeros).quality = 90 ∧
    validate (applyDefaults reqZeros) ≠ .error "quality must be between 1 and 100" ∧
    validate (applyDefaults reqZeros) =
      .ok { url := "https://example.com", height := 500, width := 1920, quality := 90,
            deviceScale := 1, timeout := 30, format := "png" } := by
  have h := (zero_valued_fields_use_defaults reqZeros).2.1 rfl
  exact ⟨rfl, h.1, h.2, by decide⟩

/-- C1: rewriting a discovered WebSocket debugger URL with non-empty
scheme and host against an http/https control-plane base yields scheme
ws/wss matching the base scheme, host:port equal to the base authority
(port defaulting to 80/443 when absent), and the discovered path
unchanged. -/
theorem rewrite_overrides_authority (wsU httpBase : URL)
    (hs : wsU.scheme ≠ "") (hh : wsU.host ≠ "")
    (hb : httpBase.scheme = "http" ∨ httpBase.scheme = "https")
    (hn : httpBase.hostname ≠ "") :
    rewriteWSDebuggerURLParsed wsU httpBase =
      .ok { wsU with
        scheme := if httpBase.scheme = "http" then "ws" else "wss"
        host := joinHostPort httpBase.hostname
          (if httpBase.port ≠ "" then httpBase.port
           else if httpBase.scheme = "http" then "80" else "443") } ∧
    ∀ u, rewriteWSDebuggerURLParsed wsU httpBase = .ok u → u.path = wsU.path := by
  have hcond : ¬ (wsU.scheme = "" ∨ wsU.host = "") := by
    rintro (hc | hc)
    · exact hs hc
    · exact hh hc
  have hhp : httpBaseHostPortWithDefault httpBase =
      .ok (joinHostPort httpBase.hostname
        (if httpBase.port ≠ "" then httpBase.port
         else if httpBase.scheme = "http" then "80" else "443")) := by
    rcases hb with hb | hb <;> by_cases hp : httpBase.port = "" <;>
      simp [httpBaseHostPortWithDefault, hb, hn, hp]
  have hsch : wsSchemeForHTTPBase httpBase =
      .ok (if httpBase.scheme = "http" then "ws" else "wss") := by
    rcases hb with hb | hb <;> simp [wsSchemeForHTTPBase, hb]
  have hmain : rewriteWSDebuggerURLParsed wsU httpBase =
      .ok { wsU with
        scheme := if httpBase.scheme = "http" then "ws" else "wss"
        host := joinHostPort httpBase.hostname
          (if httpBase.port ≠ "" then httpBase.port
           else if httpBase.scheme = "http" then "80" else "443") } := by
    unfold rewriteWSDebuggerURLParsed
    rw [if_neg hcond, hhp, hsch]
  refine ⟨hmain, fun u hu => ?_⟩
  rw [hmain] at hu
  injection hu with hu
  rw [← hu]

/-- C1 witness: the documented example — `ws://0.0.0.0:3000/devtools/browser/abc`
rewritten against base `https://example.com:8443` gives exactly
`wss://example.com:8443/devtools/browser/abc`. -/
theorem rewrite_overrides_authority_witness :
    rewriteWebSocketDebuggerURL "ws://0.0.0.0:3000/devtools/browser/abc"
        (parseURL "https://example.com:8443") =
      .ok "wss://example.com:8443/devtools/browser/abc" ∧
    (rewriteWSDebuggerURLParsed (parseURL "ws://0.0.0.0:3000/devtools/browser/abc")
        (parseURL "https://example.com:8443")).map URL.render =
      .ok "wss://example.com:8443/devtools/browser/abc" := by
  constructor
  · decide
  · rw [(rewrite_overrides_authority
      (parseURL "ws://0.0.0.0:3000/devtools/browser/abc")
      (parseURL "https://example.com:8443")
      (by decide) (by decide) (by decide) (by decide)).1]
    rfl

/-- C2: with no direct WebSocket endpoint and an empty (configured-blank)
control-plane base address, `/screenshot` hits the distinct 503
not-configured outcome with the explicit message, and `/health` returns
503 with status "degraded"; the not-configured outcome differs from both
resolution-failure outcomes. -/
theorem not_configured_surface (env : Env) (o : DiscoveryOracle)
    (hws : getChromeWSEndpoint env = "") (hb : getBrowserlessHTTPURL env = "") :
    screenshotEndpointPhase env o = .notConfigured ∧
    endpointFailureResponse (screenshotEndpointPhase env o) = some (503, notConfiguredMsg) ∧
    hasSubstr notConfiguredMsg "not configured" = true ∧
    healthResponse env o = (503, "degraded") ∧
    ∀ d, EndpointOutcome.notConfigured ≠ EndpointOutcome.resolveFailed d ∧
      EndpointOutcome.notConfigured ≠ EndpointOutcome.resolveTimeout d ∧
      endpointFailureResponse (EndpointOutcome.resolveFailed d) =
        some (502, "failed to resolve browserless websocket endpoint") := by
  have hres : resolveWSEndpoint env o =
      (.error (GoError.fresh "browserless endpoint is not configured"), false) := by
    simp [resolveWSEndpoint, hws, hb]
  have hphase : screenshotEndpointPhase env o = .notConfigured := by
    unfold screenshotEndpointPhase
    rw [hres]
  refine ⟨hphase, by rw [hphase]; rfl, by decide, by simp [healthResponse, hres],
    fun d => ⟨?_, ?_, rfl⟩⟩
  · intro hc
    exact EndpointOutcome.noConfusion hc
  · intro hc
    exact EndpointOutcome.noConfusion hc

/-- C2 witness: the concrete environment with `CHROME_WS_ENDPOINT` set
empty and `BROWSERLESS_HTTP_URL` set to whitespace (and any oracle). -/
theorem not_configured_surface_witness :
    screenshotEndpointPhase ⟨some "", some " "⟩ ⟨.ok "x", .ok "y", .ok []⟩ =
      .notConfigured ∧
    healthResponse ⟨some "", some " "⟩ ⟨.ok "x", .ok "y", .ok []⟩ = (503, "degraded") := by
  have h := not_configured_surface ⟨some "", some " "⟩ ⟨.ok "x", .ok "y", .ok []⟩
    (by decide) (by decide)
  exact ⟨h.1, h.2.2.2.1⟩

/-- C7 counterexample: a capture-pipeline failure whose text contains
"dial" (but none of websocket/handshake/connect) is mapped to 500, not
to the Connection category / 502 required by the claim's uniform
substring list. -/
theorem classification_counterexample :
    hasSubstr (goToLower "tcp dialing refused") "dial" = true ∧
    classifyRunErr { msg := "tcp dialing refused" } =
      (500, "failed to screenshot", "tcp dialing refused") ∧
    (500 : Nat) ≠ 502 := by decide

/-- C7 (amended): the two classification sites differ.  Capture-pipeline
failures: Timeout maps to 504, the substring vocabulary
websocket/handshake/connect (without "dial") maps to 502, anything else
to 500, with the diagnostic text surfaced unmodified.  Dial-phase
failures: deadline maps to 504, the vocabulary with "dial" to 502 with
the details prefixed "dial failed: ", other timeout-classified errors to
504, and anything else to 502 — never 500. -/
theorem error_classification (b : Bool) (e : GoError) :
    (isTimeoutErr e = true → classifyRunErr e = (504, "screenshot timeout", e.msg)) ∧
    (isTimeoutErr e = false → connSubstrRun (goToLower e.msg) = true →
      classifyRunErr e = (502, "failed to connect chrome endpoint", e.msg)) ∧
    (isTimeoutErr e = false → connSubstrRun (goToLower e.msg) = false →
      classifyRunErr e = (500, "failed to screenshot", e.msg)) ∧
    ((b || e.deadlineExceeded) = true →
      classifyDialErr b e = (504, "chrome dial timeout", e.msg)) ∧
    ((b || e.deadlineExceeded) = false → connSubstrDial (goToLower e.msg) = true →
      classifyDialErr b e =
        (502, "failed to connect chrome endpoint", "dial failed: " ++ e.msg)) ∧
    ((b || e.deadlineExceeded) = false → connSubstrDial (goToLower e.msg) = false →
      isTimeoutErr e = true → classifyDialErr b e = (504, "chrome dial timeout", e.msg)) ∧
    ((b || e.deadlineExceeded) = false → connSubstrDial (goToLower e.msg) = false →
      isTimeoutErr e = false →
      classifyDialErr b e = (502, "failed to connect chrome endpoint", e.msg)) ∧
    (classifyDialErr b e).1 ≠ 500 ∧
    (classifyRunErr e).2.2 = e.msg ∧
    ((classifyDialErr b e).2.2 = e.msg ∨
      (classifyDialErr b e).2.2 = "dial failed: " ++ e.msg) := by
  refine ⟨fun ht => by simp [classifyRunErr, ht],
    fun ht hc => by simp [classifyRunErr, ht, hc],
    fun ht hc => by simp [classifyRunErr, ht, hc],
    fun hd => by simp [classifyDialErr, hd],
    fun hd hc => by simp [classifyDialErr, hd, hc],
    fun hd hc ht => by simp [classifyDialErr, hd, hc, ht],
    fun hd hc ht => by simp [classifyDialErr, hd, hc, ht],
    by unfold classifyDialErr; split_ifs <;> simp,
    by unfold classifyRunErr; split_ifs <;> rfl,
    by unfold classifyDialErr; split_ifs <;> simp⟩

/-- C7 witness: a handshake-vocabulary capture error maps to 502 with the
text unmodified. -/
theorem error_classification_witness :
    classifyRunErr (GoError.fresh "websocket: bad handshake") =
      (502, "failed to connect chrome endpoint", "websocket: bad handshake") :=
  (error_classification false (GoError.fresh "websocket: bad handshake")).2.1
    (by decide) (by decide)

/-- Helper: a successful `/json/list` scan returns the rewrite of the
first entry that both carries the devtools path and rewrites
successfully; every earlier entry fails one of those two tests. -/
theorem jsonListScan_first_usable (httpBase : URL) :
    ∀ (payloads : List String) (r : String),
      jsonListScan httpBase payloads = some r →
      ∃ i raw, payloads.get? i = some raw ∧ hasDevToolsPath raw = true ∧
        rewriteWebSocketDebuggerURL raw httpBase = .ok r ∧
        ∀ j raw2, j < i → payloads.get? j = some raw2 →
          hasDevToolsPath raw2 = false ∨
          ∃ e2, rewriteWebSocketDebuggerURL raw2 httpBase = .error e2 := by
  intro payloads
  induction payloads with
  | nil => intro r h; exact absurd h (by simp [jsonListScan])
  | cons head tail ih =>
    intro r h
    unfold jsonListScan at h
    by_cases hdev : hasDevToolsPath head = false
    · rw [if_pos hdev] at h
      obtain ⟨i, raw, hget, hdev2, hrw, hbefore⟩ := ih r h
      refine ⟨i + 1, raw, by simpa using hget, hdev2, hrw, ?_⟩
      intro j raw2 hj hget2
      cases j with
      | zero =>
        simp only [List.get?] at hget2
        injection hget2 with hget2
        exact Or.inl (hget2 ▸ hdev)
      | succ k =>
        exact hbefore k raw2 (by omega) (by simpa using hget2)
    · rw [if_neg hdev] at h
      have hdevt : hasDevToolsPath head = true := by
        cases hv : hasDevToolsPath head
        · exact absurd hv hdev
        · rfl
      cases hrw : rewriteWebSocketDebuggerURL head httpBase with
      | error e2 =>
        simp only [hrw] at h
        obtain ⟨i, raw, hget, hdev2, hrw2, hbefore⟩ := ih r h
        refine ⟨i + 1, raw, by simpa using hget, hdev2, hrw2, ?_⟩
        intro j raw2 hj hget2
        cases j with
        | zero =>
          simp only [List.get?] at hget2
          injection hget2 with hget2
          exact Or.inr ⟨e2, hget2 ▸ hrw⟩
        | succ k =>
          exact hbefore k raw2 (by omega) (by simpa using hget2)
      | ok rr =>
        simp only [hrw] at h
        injection h with h
        subst h
        exact ⟨0, head, rfl, hdevt, hrw, fun j raw2 hj _ => absurd hj (by omega)⟩

/-- C3 counterexample: the `/json/list` fallback does not take the first
array entry whose URL carries the `/devtools/` prefix when that entry
fails the authority rewrite (here a schemeless URL): the first entry
carries the prefix, yet the resolver returns the rewrite of the second
entry. -/
theorem discovery_first_entry_counterexample :
    hasDevToolsPath "/devtools/browser/first" = true ∧
    resolveWSEndpointViaJSONVersion oracleFallback (parseURL "http://example.com:3000") =
      .ok "ws://example.com:3000/devtools/browser/second" ∧
    "ws://example.com:3000/devtools/browser/second" ≠
      "ws://example.com:3000/devtools/browser/first" := by decide

/-- C3 (amended): when `/json/version` returns a URL without the devtools
path, the resolver attempts `/json/new`, then — only if that failed —
`/json/list`, in exactly that order, and errors only after both fail;
the list fallback takes the first array entry that carries the
`/devtools/` prefix and rewrites successfully (entries whose rewrite
fails are skipped), and each fallback applies the same authority
rewrite. -/
theorem discovery_fallback_order (o : DiscoveryOracle) (httpBase : URL) (rawWS : String)
    (hver : o.versionResp = .ok rawWS)
    (hnodev : hasDevToolsPath (goTrimSpace rawWS) = false) :
    ((resolveWSEndpointViaJSONVersionTraced o httpBase).2 =
      match resolveWSEndpointViaJSONNew o httpBase with
      | .ok _ => [DiscoveryCall.version, DiscoveryCall.jsonNew]
      | .error _ => [DiscoveryCall.version, DiscoveryCall.jsonNew, DiscoveryCall.jsonList]) ∧
    (∀ s, resolveWSEndpointViaJSONNew o httpBase = .ok s →
      resolveWSEndpointViaJSONVersion o httpBase = .ok s) ∧
    (∀ e1 s, resolveWSEndpointViaJSONNew o httpBase = .error e1 →
      resolveWSEndpointViaJSONList o httpBase = .ok s →
      resolveWSEndpointViaJSONVersion o httpBase = .ok s) ∧
    (∀ e1 e2, resolveWSEndpointViaJSONNew o httpBase = .error e1 →
      resolveWSEndpointViaJSONList o httpBase = .error e2 →
      resolveWSEndpointViaJSONVersion o httpBase =
        .error (GoError.fresh ("browserless /json/version returned non-devtools ws (\"" ++
          goTrimSpace rawWS ++ "\") and fallbacks (/json/new,/json/list) failed"))) ∧
    (∀ payloads s, o.listResp = .ok payloads →
      resolveWSEndpointViaJSONList o httpBase = .ok s →
      ∃ i raw, payloads.get? i = some raw ∧ hasDevToolsPath raw = true ∧
        rewriteWebSocketDebuggerURL raw httpBase = .ok s ∧
        ∀ j raw2, j < i → payloads.get? j = some raw2 →
          hasDevToolsPath raw2 = false ∨
          ∃ e2, rewriteWebSocketDebuggerURL raw2 httpBase = .error e2) := by
  have htr : resolveWSEndpointViaJSONVersionTraced o httpBase =
      match resolveWSEndpointViaJSONNew o httpBase with
      | .ok resolved => (.ok resolved, [DiscoveryCall.version, DiscoveryCall.jsonNew])
      | .error _ =>
        match resolveWSEndpointViaJSONList o httpBase with
        | .ok resolved =>
          (.ok resolved,
           [DiscoveryCall.version, DiscoveryCall.jsonNew, DiscoveryCall.jsonList])
        | .error _ =>
          (.error (GoError.fresh ("browserless /json/version returned non-devtools ws (\"" ++
             goTrimSpace rawWS ++ "\") and fallbacks (/json/new,/json/list) failed")),
           [DiscoveryCall.version, DiscoveryCall.jsonNew, DiscoveryCall.jsonList]) := by
    unfold resolveWSEndpointViaJSONVersionTraced
    simp only [hver]
    rw [if_neg (by simp [hnodev])]
  refine ⟨?_, ?_, ?_, ?_, ?_⟩
  · rw [htr]
    cases hnew : resolveWSEndpointViaJSONNew o httpBase with
    | ok s1 => rfl
    | error e1 =>
      cases hlist : resolveWSEndpointViaJSONList o httpBase with
      | ok s2 => rfl
      | error e2 => rfl
  · intro s hnew
    unfold resolveWSEndpointViaJSONVersion
    rw [htr, hnew]
  · intro e1 s hnew hlist
    unfold resolveWSEndpointViaJSONVersion
    rw [htr, hnew, hlist]
  · intro e1 e2 hnew hlist
    unfold resolveWSEndpointViaJSONVersion
    rw [htr, hnew, hlist]
  · intro payloads s hresp hok
    unfold resolveWSEndpointViaJSONList at hok
    simp only [hresp] at hok
    cases hscan : jsonListScan httpBase payloads with
    | none =>
      simp only [hscan] at hok
      exact absurd hok (by intro hc; exact Except.noConfusion hc)
    | some rr =>
      simp only [hscan] at hok
      injection hok with hok
      subst hok
      exact jsonListScan_first_usable httpBase payloads rr hscan

/-- C3 witness: the amended statement at the concrete oracle — the trace
runs version, then new, then list, and resolution succeeds through the
list fallback. -/
theorem discovery_fallback_order_witness :
    resolveWSEndpointViaJSONVersion oracleFallback (parseURL "http://example.com:3000") =
      .ok "ws://example.com:3000/devtools/browser/second" ∧
    (resolveWSEndpointViaJSONVersionTraced oracleFallback
        (parseURL "http://example.com:3000")).2 =
      [DiscoveryCall.version, DiscoveryCall.jsonNew, DiscoveryCall.jsonList] := by
  have h := discovery_fallback_order oracleFallback (parseURL "http://example.com:3000")
    "ws://0.0.0.0:3000" (by decide) (by decide)
  refine ⟨h.2.2.1 (GoError.fresh "json/new unavailable")
    "ws://example.com:3000/devtools/browser/second" (by decide) (by decide), ?_⟩
  rw [h.1]
  decide

/-- C8 counterexample: a GET query attempting to set the clip rectangle
(under JSON-object and flattened spellings) still parses to a request
with no clip, so the clip field of the data model is not settable via a
GET query parameter. -/
theorem get_clip_counterexample :
    parseRequestFromGET (fun _ => none) qClipAttempt =
      .ok { url := "https://example.com", format := "png", width := 1920,
            quality := 90, deviceScale := 1, timeout := 30, clip := none } := by decide

/-- C8 (amended): GET parses exactly the POST field set minus the clip
rectangle: every successfully parsed GET request draws each other field
from its own individually-typed query parameter (headers through the
JSON object string decoder) and always carries `clip = none`. -/
theorem get_request_field_set (jsonObjOf : String → Option (List (String × String)))
    (q : QueryParams) (r : ScreenshotRequest)
    (h : parseRequestFromGET jsonObjOf q = .ok r) :
    r.clip = none ∧
    ∃ w hgt qual wt tmo ds fp mb ls hd,
      parseIntQuery q "width" defaultWidth = .ok w ∧
      parseIntQuery q "height" 0 = .ok hgt ∧
      parseIntQuery q "quality" defaultQuality = .ok qual ∧
      parseIntQuery q "wait_time" 0 = .ok wt ∧
      parseIntQuery q "timeout" defaultTimeoutSec = .ok tmo ∧
      parseFloatQuery q "device_scale" defaultDeviceScale = .ok ds ∧
      parseBoolQuery q "full_page" false = .ok fp ∧
      parseBoolQuery q "mobile" false = .ok mb ∧
      parseBoolQuery q "landscape" false = .ok ls ∧
      parseHeadersQuery jsonObjOf q = .ok hd ∧
      r = { url := queryGet q "url", selector := queryGet q "selector",
            format := queryGetDefault q "format" defaultFormat,
            waitFor := queryGet q "wait_for", width := w, height := hgt,
            quality := qual, waitTime := wt, timeout := tmo, deviceScale := ds,
            fullPage := fp, mobile := mb, landscape := ls,
            userAgent := queryGet q "user_agent", headers := hd, clip := none } := by
  unfold parseRequestFromGET at h
  cases h1 : parseIntQuery q "width" defaultWidth with
  | error e => simp only [h1] at h; exact Except.noConfusion h
  | ok w =>
  cases h2 : parseIntQuery q "height" 0 with
  | error e => simp only [h1, h2] at h; exact Except.noConfusion h
  | ok hgt =>
  cases h3 : parseIntQuery q "quality" defaultQuality with
  | error e => simp only [h1, h2, h3] at h; exact Except.noConfusion h
  | ok qual =>
  cases h4 : parseIntQuery q "wait_time" 0 with
  | error e => simp only [h1, h2, h3, h4] at h; exact Except.noConfusion h
  | ok wt =>
  cases h5 : parseIntQuery q "timeout" defaultTimeoutSec with
  | error e => simp only [h1, h2, h3, h4, h5] at h; exact Except.noConfusion h
  | ok tmo =>
  cases h6 : parseFloatQuery q "device_scale" defaultDeviceScale with
  | error e => simp only [h1, h2, h3, h4, h5, h6] at h; exact Except.noConfusion h
  | ok ds =>
  cases h7 : parseBoolQuery q "full_page" false with
  | error e => simp only [h1, h2, h3, h4, h5, h6, h7] at h; exact Except.noConfusion h
  | ok fp =>
  cases h8 : parseBoolQuery q "mobile" false with
  | error e => simp only [h1, h2, h3, h4, h5, h6, h7, h8] at h; exact Except.noConfusion h
  | ok mb =>
  cases h9 : parseBoolQuery q "landscape" false with
  | error e =>
    simp only [h1, h2, h3, h4, h5, h6, h7, h8, h9] at h
    exact Except.noConfusion h
  | ok ls =>
  cases h10 : parseHeadersQuery jsonObjOf q with
  | error e =>
    simp only [h1, h2, h3, h4, h5, h6, h7, h8, h9, h10] at h
    exact Except.noConfusion h
  | ok hd =>
    simp only [h1, h2, h3, h4, h5, h6, h7, h8, h9, h10] at h
    injection h with h
    refine ⟨by rw [← h], w, hgt, qual, wt, tmo, ds, fp, mb, ls, hd,
      rfl, rfl, rfl, rfl, rfl, rfl, rfl, rfl, rfl, rfl, h.symm⟩

/-- C8 witness: the query setting every settable field parses to the
expected fully-typed request, whose clip is absent. -/
theorem get_request_field_set_witness :
    parseRequestFromGET jsonHdr qFull = .ok reqFull ∧ reqFull.clip = none :=
  ⟨by decide, (get_request_field_set jsonHdr qFull reqFull (by decide)).1⟩

end ScreenshotServer
